import Mathlib

/-
Verification of the interaction verification-and-dispatch core of
src/gatepoint/gateway.py (class GatewayClient and its POST /interaction
endpoint).  The Python code is shallowly embedded: dictionaries become
association lists, handlers become opaque numeric identifiers, and the
side effects the endpoint performs (awaiting lifecycle handlers, invoking
the routed handler) are recorded in an explicit trace list in execution
order.  Python exceptions that escape the endpoint (KeyError,
TypeError, UnicodeDecodeError) become an explicit error
response constructor; a raised fastapi HTTPException and a returned (not
raised) HTTPException object are kept distinct, because FastAPI turns the
former into a response with the given status code and the latter into an
ordinary HTTP 200 response whose body is the serialized exception object.
-/

set_option autoImplicit false

namespace Gatepoint

/-- Value stored in the GatewayClient.events dictionary for one event name.
Python code stores either a list of handlers or None there (the latter due
to the append bug in GatewayClient.on, gateway.py line 199). -/
inductive EventsVal where
  | pynone
  | pylist (handlers : List Nat)
  deriving DecidableEq, Repr

/-- Dictionary get with default None: models dict.get on the events
dictionary, where both a missing key and a stored None read back as None. -/
def eventsGet (events : List (String × EventsVal)) (k : String) : EventsVal :=
  match events.lookup k with
  | some v => v
  | none => .pynone

/-- Dictionary assignment d[k] = v, keeping the original key position as a
Python dict does. -/
def dictSet (events : List (String × EventsVal)) (k : String) (v : EventsVal) :
    List (String × EventsVal) :=
  match events with
  | [] => [(k, v)]
  | (k2, v2) :: rest => if k2 == k then (k, v) :: rest else (k2, v2) :: dictSet rest k v

/-- Python truthiness of the stored value: None and the empty list are
falsy, a nonempty list is truthy. -/
def truthy : EventsVal → Bool
  | .pynone => false
  | .pylist l => !l.isEmpty

/-- GatewayClient.on, gateway.py lines 191-203.  The decorator body is

  event_list = self.events.get(event).append(func) if self.events.get(event) else [func]
  self.events[event] = event_list

When the stored value is truthy, list.append mutates the stored list but
evaluates to None, and the subsequent assignment stores that None under the
event name, discarding the mutated list (no other reference to it exists).
Otherwise a fresh one-element list is stored. -/
def onRegister (events : List (String × EventsVal)) (event : String) (func : Nat) :
    List (String × EventsVal) :=
  if truthy (eventsGet events event) then
    dictSet events event .pynone
  else
    dictSet events event (.pylist [func])

/-- Registration state of a GatewayClient: commands by name, buttons and
menus by custom id (gateway.py lines 66-72), lifecycle events by event
name.  Handlers are opaque identifiers. -/
structure ClientState where
  commands : List (String × Nat)
  buttons : List (String × Nat)
  menus : List (String × Nat)
  events : List (String × EventsVal)
  deriving Repr

/-- Handlers iterated by a lifecycle loop
for event in self.events.get(name) or []: a stored nonempty list is
iterated as is; a missing key, a stored None and a stored empty list all
iterate the empty list. -/
def fireHandlers (st : ClientState) (event : String) : List Nat :=
  match eventsGet st.events event with
  | .pylist l => l
  | .pynone => []

/-- One element of payload.data.options: the source reads option[\x22value\x22]
of each entry (gateway.py line 273). -/
structure OptionEntry where
  value : String
  deriving DecidableEq, Repr

/-- The fields of payload[\x22data\x22] the endpoint consumes.  Every field is
optional: a missing field models a missing JSON key, and reading it with
subscription raises KeyError. -/
structure PayloadData where
  name : Option String
  custom_id : Option String
  component_type : Option Int
  options : Option (List OptionEntry)
  values : Option (List String)
  deriving Repr

/-- The decoded interaction payload.  data = none models a JSON body with
no data key. -/
structure Payload where
  type : Int
  data : Option PayloadData
  deriving Repr

/-- Python exceptions the endpoint can let escape; FastAPI answers them
with HTTP 500. -/
inductive PyErr where
  | keyError (key : String)
  | typeError (msg : String)
  | unicodeDecodeError
  deriving DecidableEq, Repr

/-- Extra positional argument passed to a routed handler after the
Interaction facade. -/
inductive Arg where
  | str (s : String)
  | strList (l : List String)
  deriving DecidableEq, Repr

/-- Result of the endpoint coroutine.  raised s d models raise
HTTPException(status_code = s, detail = d), which FastAPI turns into an
HTTP s response with body of the form detail d.  returnedException s d
models return HTTPException(...): the exception object is returned as an
ordinary value, so FastAPI serializes it and responds with HTTP 200.
pingAck is the literal value with type 1; defaultMessage c is the default
fallback envelope with type 4, content c and flags 64; handlerResult h a
stands for the value returned by handler h when invoked with the
Interaction facade followed by the extra arguments a; serverError e is an
uncaught Python exception. -/
inductive Response where
  | raised (status : Nat) (detail : String)
  | returnedException (status : Nat) (detail : String)
  | pingAck
  | defaultMessage (content : String)
  | handlerResult (handler : Nat) (extraArgs : List Arg)
  | serverError (e : PyErr)
  deriving DecidableEq, Repr

/-- HTTP status code of the response FastAPI sends for each endpoint
outcome: a raised HTTPException keeps its status, an uncaught Python error
is 500, every returned value (the returned exception object included) is
sent with status 200. -/
def httpStatusOf : Response → Nat
  | .raised s _ => s
  | .serverError _ => 500
  | _ => 200

/-- Observable effect of the endpoint, in execution order: awaiting one
lifecycle handler for a named event, or invoking a routed handler with its
extra positional arguments. -/
inductive TraceEv where
  | lifecycle (event : String) (handler : Nat)
  | invoke (handler : Nat) (extraArgs : List Arg)
  deriving DecidableEq, Repr

/-- Trace of one lifecycle loop: every handler of the event, in stored
(registration) order. -/
def fireTrace (st : ClientState) (event : String) : List TraceEv :=
  (fireHandlers st event).map (TraceEv.lifecycle event)

/-- Accumulator of the option extraction loop, gateway.py lines 271-273.
The loop starts from the empty tuple; one step evaluates
input_tuple.__add__((option[\x22value\x22])), and the parenthesized operand is
the bare string, not a one-element tuple. -/
inductive TupleAcc where
  | tup (vals : List String)
  deriving DecidableEq, Repr

/-- One loop step: tuple.__add__ with a str operand raises TypeError
immediately (can only concatenate tuple (not str) to tuple), so the loop
dies on its first iteration whenever it runs at all. -/
def tupleAddValue : TupleAcc → String → Except PyErr TupleAcc
  | .tup _, _ => .error (.typeError "can only concatenate tuple (not str) to tuple")

/-- The whole extraction loop over data.options. -/
def extractOptions : TupleAcc → List OptionEntry → Except PyErr TupleAcc
  | acc, [] => .ok acc
  | acc, o :: os =>
    match tupleAddValue acc o.value with
    | .ok acc2 => extractOptions acc2 os
    | .error e => .error e

/-- Default content strings of gateway.py lines 283, 306, 325, 334, 340. -/
def commandNotRegisteredMsg : String :=
  "This command is not registered with Interaction Gateway API."

/-- Default content for an unregistered menu custom id. -/
def menuNotRegisteredMsg : String :=
  "This menu is not registered with Interaction Gateway API."

/-- Default content for an unregistered button custom id. -/
def buttonNotRegisteredMsg : String :=
  "This button is not registered with Interaction Gateway API."

/-- Default content for a known but unsupported interaction type. -/
def unsupportedMsg : String :=
  "This interaction is not yet supported by Interaction Gateway API."

/-- Detail of the 400 HTTPException of gateway.py line 340. -/
def unrecognisedMsg : String :=
  "Interaction not recognised by Interaction Gateway API."

/-- Component type codes treated as select menus, gateway.py line 290. -/
def menuComponentTypes : List Int := [3, 4, 5, 6, 7, 8]

/-- The select-menu value expression of gateway.py line 291:
data values subscripted at 0 when the list is truthy, else None.  (The
variable is computed and never used afterwards by the source.) -/
def selectMenuValue : List String → Option String
  | [] => none
  | v :: _ => some v

/-- Select-menu continuation of gateway.py lines 291-309, entered after
data values was read successfully. -/
def menuBranch (st : ClientState) (d : PayloadData) (vs : List String) :
    Response × List TraceEv :=
  let _value := selectMenuValue vs
  match d.custom_id with
  | none => (.serverError (.keyError "custom_id"), [])
  | some cid =>
    match st.menus.lookup cid with
    | some h =>
      (.handlerResult h [.strList vs],
        fireTrace st "interaction_receive" ++ fireTrace st "menu_select"
          ++ [.invoke h [.strList vs]])
    | none => (.defaultMessage menuNotRegisteredMsg, [])

/-- Dispatch of a decoded, signature-verified payload: gateway.py lines
254-340.  Subscription of a missing JSON key raises KeyError; the final
guard of line 330 is the literal disjunction type greater or equal 4 or
type less than 12 of the source, which holds of every integer, so the 400
branch of line 340 is unreachable. -/
def processPayload (st : ClientState) (p : Payload) : Response × List TraceEv :=
  if p.type = 1 then
    (.pingAck, [])
  else if p.type = 2 then
    match p.data with
    | none => (.serverError (.keyError "data"), [])
    | some d =>
      match d.name with
      | none => (.serverError (.keyError "name"), [])
      | some nm =>
        match st.commands.lookup nm with
        | some h =>
          let fired := fireTrace st "interaction_receive" ++ fireTrace st "command_receive"
          match d.options with
          | some (o :: os) =>
            match extractOptions (.tup []) (o :: os) with
            | .ok (.tup vals) =>
              (.handlerResult h (vals.map .str), fired ++ [.invoke h (vals.map .str)])
            | .error e => (.serverError e, fired)
          | _ => (.handlerResult h [], fired ++ [.invoke h []])
        | none => (.defaultMessage commandNotRegisteredMsg, [])
  else if p.type = 3 then
    match p.data with
    | none => (.serverError (.keyError "data"), [])
    | some d =>
      match d.component_type with
      | none => (.serverError (.keyError "component_type"), [])
      | some ct =>
        if ct ∈ menuComponentTypes then
          match d.values with
          | none => (.serverError (.keyError "values"), [])
          | some vs => menuBranch st d vs
        else
          match d.custom_id with
          | none => (.serverError (.keyError "custom_id"), [])
          | some cid =>
            match st.buttons.lookup cid with
            | some h =>
              (.handlerResult h [],
                fireTrace st "interaction_receive" ++ fireTrace st "button_click"
                  ++ [.invoke h []])
            | none => (.defaultMessage buttonNotRegisteredMsg, [])
  else if p.type ≥ 4 ∨ p.type < 12 then
    (.defaultMessage unsupportedMsg, [])
  else
    (.raised 400 unrecognisedMsg, [])

/-- One step of strict UTF-8 decoding, as performed by bytes.decode with
the utf-8 codec in strict mode (gateway.py line 241): consumes the leading
scalar value of the byte sequence and returns it with the remaining bytes.
Stray continuation bytes, overlong forms, surrogate codepoints and
codepoints beyond 0x10FFFF are rejected (none), which models an uncaught
UnicodeDecodeError. -/
def utf8DecodeOne : List Nat → Option (Nat × List Nat)
  | [] => none
  | b0 :: rest =>
    if b0 < 0x80 then some (b0, rest)
    else if b0 < 0xC2 then none
    else if b0 < 0xE0 then
      match rest with
      | b1 :: rest2 =>
        if 0x80 ≤ b1 ∧ b1 < 0xC0 then
          some ((b0 - 0xC0) * 0x40 + (b1 - 0x80), rest2)
        else none
      | [] => none
    else if b0 < 0xF0 then
      match rest with
      | b1 :: b2 :: rest2 =>
        if (0x80 ≤ b1 ∧ b1 < 0xC0) ∧ (0x80 ≤ b2 ∧ b2 < 0xC0) ∧
            (b0 = 0xE0 → 0xA0 ≤ b1) ∧ (b0 = 0xED → b1 < 0xA0) then
          some ((b0 - 0xE0) * 0x1000 + (b1 - 0x80) * 0x40 + (b2 - 0x80), rest2)
        else none
      | _ => none
    else if b0 < 0xF5 then
      match rest with
      | b1 :: b2 :: b3 :: rest2 =>
        if (0x80 ≤ b1 ∧ b1 < 0xC0) ∧ (0x80 ≤ b2 ∧ b2 < 0xC0) ∧ (0x80 ≤ b3 ∧ b3 < 0xC0) ∧
            (b0 = 0xF0 → 0x90 ≤ b1) ∧ (b0 = 0xF4 → b1 < 0x90) then
          some ((b0 - 0xF0) * 0x40000 + (b1 - 0x80) * 0x1000 + (b2 - 0x80) * 0x40 + (b3 - 0x80),
            rest2)
        else none
      | _ => none
    else none

/-- Decoding loop, with explicit fuel so that the recursion is structural;
utf8Decode runs it with fuel equal to the byte count, which always
suffices because every step consumes at least one byte. -/
def utf8DecodeLoop : Nat → List Nat → Option (List Nat)
  | _, [] => some []
  | 0, _ :: _ => none
  | fuel + 1, b0 :: rest =>
    (utf8DecodeOne (b0 :: rest)).bind fun cr =>
      (utf8DecodeLoop fuel cr.2).map fun cs => cr.1 :: cs

/-- Strict UTF-8 decoding of a whole byte sequence into its sequence of
Unicode scalar values; none models UnicodeDecodeError. -/
def utf8Decode (bs : List Nat) : Option (List Nat) := utf8DecodeLoop bs.length bs

/-- UTF-8 encoding of one Unicode scalar value, as str.encode produces. -/
def utf8EncodeChar (c : Nat) : List Nat :=
  if c < 0x80 then [c]
  else if c < 0x800 then [0xC0 + c / 0x40, 0x80 + c % 0x40]
  else if c < 0x10000 then [0xE0 + c / 0x1000, 0x80 + c / 0x40 % 0x40, 0x80 + c % 0x40]
  else [0xF0 + c / 0x40000, 0x80 + c / 0x1000 % 0x40, 0x80 + c / 0x40 % 0x40, 0x80 + c % 0x40]

/-- UTF-8 encoding of a sequence of Unicode scalar values (a Python str
modelled as its codepoints). -/
def utf8Encode : List Nat → List Nat
  | [] => []
  | c :: cs => utf8EncodeChar c ++ utf8Encode cs

theorem utf8Encode_append (s t : List Nat) :
    utf8Encode (s ++ t) = utf8Encode s ++ utf8Encode t := by
  induction s with
  | nil => rfl
  | cons c cs ih => simp [utf8Encode, ih]

theorem utf8EncodeChar_one (b0 : Nat) (h : b0 < 0x80) : utf8EncodeChar b0 = [b0] := by
  simp [utf8EncodeChar, h]

theorem utf8EncodeChar_two (b0 b1 : Nat) (h0 : 0xC2 ≤ b0) (h1 : b0 < 0xE0)
    (h2 : 0x80 ≤ b1) (h3 : b1 < 0xC0) :
    utf8EncodeChar ((b0 - 0xC0) * 0x40 + (b1 - 0x80)) = [b0, b1] := by
  have hn1 : ¬ ((b0 - 0xC0) * 0x40 + (b1 - 0x80) < 0x80) := by omega
  have hlt : (b0 - 0xC0) * 0x40 + (b1 - 0x80) < 0x800 := by omega
  simp only [utf8EncodeChar, if_neg hn1, if_pos hlt]
  have e1 : 0xC0 + ((b0 - 0xC0) * 0x40 + (b1 - 0x80)) / 0x40 = b0 := by omega
  have e2 : 0x80 + ((b0 - 0xC0) * 0x40 + (b1 - 0x80)) % 0x40 = b1 := by omega
  rw [e1, e2]

theorem utf8EncodeChar_three (b0 b1 b2 : Nat) (h0 : 0xE0 ≤ b0) (h1 : b0 < 0xF0)
    (h2 : 0x80 ≤ b1) (h3 : b1 < 0xC0) (h4 : 0x80 ≤ b2) (h5 : b2 < 0xC0)
    (h6 : b0 = 0xE0 → 0xA0 ≤ b1) :
    utf8EncodeChar ((b0 - 0xE0) * 0x1000 + (b1 - 0x80) * 0x40 + (b2 - 0x80)) = [b0, b1, b2] := by
  have hn1 : ¬ ((b0 - 0xE0) * 0x1000 + (b1 - 0x80) * 0x40 + (b2 - 0x80) < 0x80) := by omega
  have hn2 : ¬ ((b0 - 0xE0) * 0x1000 + (b1 - 0x80) * 0x40 + (b2 - 0x80) < 0x800) := by omega
  have hlt : (b0 - 0xE0) * 0x1000 + (b1 - 0x80) * 0x40 + (b2 - 0x80) < 0x10000 := by omega
  simp only [utf8EncodeChar, if_neg hn1, if_neg hn2, if_pos hlt]
  have e1 : 0xE0 + ((b0 - 0xE0) * 0x1000 + (b1 - 0x80) * 0x40 + (b2 - 0x80)) / 0x1000 = b0 := by
    omega
  have e2 : 0x80 + ((b0 - 0xE0) * 0x1000 + (b1 - 0x80) * 0x40 + (b2 - 0x80)) / 0x40 % 0x40 = b1 := by
    omega
  have e3 : 0x80 + ((b0 - 0xE0) * 0x1000 + (b1 - 0x80) * 0x40 + (b2 - 0x80)) % 0x40 = b2 := by
    omega
  rw [e1, e2, e3]

theorem utf8EncodeChar_four (b0 b1 b2 b3 : Nat) (h0 : 0xF0 ≤ b0) (h1 : b0 < 0xF5)
    (h2 : 0x80 ≤ b1) (h3 : b1 < 0xC0) (h4 : 0x80 ≤ b2) (h5 : b2 < 0xC0)
    (h6 : 0x80 ≤ b3) (h7 : b3 < 0xC0) (h8 : b0 = 0xF0 → 0x90 ≤ b1) :
    utf8EncodeChar ((b0 - 0xF0) * 0x40000 + (b1 - 0x80) * 0x1000 + (b2 - 0x80) * 0x40 + (b3 - 0x80))
      = [b0, b1, b2, b3] := by
  have hn1 : ¬ ((b0 - 0xF0) * 0x40000 + (b1 - 0x80) * 0x1000 + (b2 - 0x80) * 0x40 + (b3 - 0x80)
      < 0x80) := by omega
  have hn2 : ¬ ((b0 - 0xF0) * 0x40000 + (b1 - 0x80) * 0x1000 + (b2 - 0x80) * 0x40 + (b3 - 0x80)
      < 0x800) := by omega
  have hn3 : ¬ ((b0 - 0xF0) * 0x40000 + (b1 - 0x80) * 0x1000 + (b2 - 0x80) * 0x40 + (b3 - 0x80)
      < 0x10000) := by omega
  simp only [utf8EncodeChar, if_neg hn1, if_neg hn2, if_neg hn3]
  have e1 : 0xF0 + ((b0 - 0xF0) * 0x40000 + (b1 - 0x80) * 0x1000 + (b2 - 0x80) * 0x40
      + (b3 - 0x80)) / 0x40000 = b0 := by omega
  have e2 : 0x80 + ((b0 - 0xF0) * 0x40000 + (b1 - 0x80) * 0x1000 + (b2 - 0x80) * 0x40
      + (b3 - 0x80)) / 0x1000 % 0x40 = b1 := by omega
  have e3 : 0x80 + ((b0 - 0xF0) * 0x40000 + (b1 - 0x80) * 0x1000 + (b2 - 0x80) * 0x40
      + (b3 - 0x80)) / 0x40 % 0x40 = b2 := by omega
  have e4 : 0x80 + ((b0 - 0xF0) * 0x40000 + (b1 - 0x80) * 0x1000 + (b2 - 0x80) * 0x40
      + (b3 - 0x80)) % 0x40 = b3 := by omega
  rw [e1, e2, e3, e4]

theorem utf8DecodeOne_spec (bs : List Nat) (c : Nat) (rest : List Nat)
    (h : utf8DecodeOne bs = some (c, rest)) :
    utf8EncodeChar c ++ rest = bs ∧ rest.length < bs.length := by
  cases bs with
  | nil => exact Option.noConfusion h
  | cons b0 tl =>
    simp only [utf8DecodeOne] at h
    split at h
    · rename_i hb0
      injection h with h2
      injection h2 with hc hrest
      subst hc; subst hrest
      refine ⟨?_, by simp only [List.length_cons]; omega⟩
      rw [utf8EncodeChar_one b0 hb0]
      rfl
    · split at h
      · exact Option.noConfusion h
      · split at h
        · split at h
          · rename_i b1 rest2
            split at h
            · rename_i hcont
              injection h with h2
              injection h2 with hc hrest
              subst hc; subst hrest
              refine ⟨?_, by simp only [List.length_cons]; omega⟩
              rw [utf8EncodeChar_two b0 b1 (by omega) (by omega) (by omega) (by omega)]
              rfl
            · exact Option.noConfusion h
          · exact Option.noConfusion h
        · split at h
          · split at h
            · rename_i b1 b2 rest2
              split at h
              · rename_i hcont
                injection h with h2
                injection h2 with hc hrest
                subst hc; subst hrest
                refine ⟨?_, by simp only [List.length_cons]; omega⟩
                rw [utf8EncodeChar_three b0 b1 b2 (by omega) (by omega) (by omega) (by omega)
                    (by omega) (by omega) (by omega)]
                rfl
              · exact Option.noConfusion h
            · exact Option.noConfusion h
          · split at h
            · split at h
              · rename_i b1 b2 b3 rest2
                split at h
                · rename_i hcont
                  injection h with h2
                  injection h2 with hc hrest
                  subst hc; subst hrest
                  refine ⟨?_, by simp only [List.length_cons]; omega⟩
                  rw [utf8EncodeChar_four b0 b1 b2 b3 (by omega) (by omega) (by omega) (by omega)
                      (by omega) (by omega) (by omega) (by omega) (by omega)]
                  rfl
                · exact Option.noConfusion h
              · exact Option.noConfusion h
            · exact Option.noConfusion h

theorem utf8Encode_utf8DecodeLoop (fuel : Nat) :
    ∀ (bs : List Nat), bs.length ≤ fuel → ∀ cs, utf8DecodeLoop fuel bs = some cs →
      utf8Encode cs = bs := by
  induction fuel with
  | zero =>
    intro bs hlen cs h
    cases bs with
    | nil => cases h; rfl
    | cons b0 tl => simp at hlen
  | succ fuel ih =>
    intro bs hlen cs h
    cases bs with
    | nil => cases h; rfl
    | cons b0 tl =>
      rw [utf8DecodeLoop] at h
      cases hone : utf8DecodeOne (b0 :: tl) with
      | none => rw [hone] at h; exact Option.noConfusion h
      | some cr =>
        rw [hone] at h
        simp only [Option.some_bind] at h
        obtain ⟨hpre, hlt⟩ := utf8DecodeOne_spec (b0 :: tl) cr.1 cr.2 (by rw [hone])
        cases hrec : utf8DecodeLoop fuel cr.2 with
        | none => rw [hrec] at h; exact Option.noConfusion h
        | some cs2 =>
          rw [hrec] at h
          simp only [Option.map_some', Option.some.injEq] at h
          subst h
          have hlen2 : cr.2.length ≤ fuel := by
            simp only [List.length_cons] at hlen hlt
            omega
          rw [utf8Encode, ih cr.2 hlen2 cs2 hrec, hpre]

/-- Round trip of the strict codec: a byte sequence accepted by the strict
UTF-8 decoder re-encodes to exactly itself, so str.encode after
bytes.decode is the identity on valid UTF-8 bodies. -/
theorem utf8Encode_utf8Decode (bs cs : List Nat) (h : utf8Decode bs = some cs) :
    utf8Encode cs = bs :=
  utf8Encode_utf8DecodeLoop bs.length bs le_rfl cs h

/-- The inbound HTTP request as the endpoint sees it: the two signature
headers (absent models a missing header) and the raw body bytes.  Header
values are modelled as their codepoint sequences. -/
structure HttpRequest where
  signature : Option (List Nat)
  timestamp : Option (List Nat)
  rawBody : List Nat
  deriving Repr

/-- The POST /interaction endpoint, gateway.py lines 228-340.  verify
abstracts verify_key.verify on (message, bytes.fromhex(signature)): true
models a signature accepted by the Ed25519 primitive, false models the
BadSignatureError path (any fromhex failure is outside this model, as no
claim depends on it).  payload stands for the value of request.json(),
the decoded JSON of the same body (a JSON parse failure is likewise
outside the claims considered here).  The header presence check of line
235 runs first; the body is then decoded as UTF-8 (line 241); the message
verified is the encoding of the timestamp concatenated with the decoded
body (line 244).  On BadSignatureError the source RETURNS the
HTTPException instead of raising it, hence the returnedException
constructor. -/
def interactionEndpoint (verify : List Nat → List Nat → Bool)
    (st : ClientState) (req : HttpRequest) (payload : Payload) :
    Response × List TraceEv :=
  match req.signature, req.timestamp with
  | some sig, some ts =>
    match utf8Decode req.rawBody with
    | none => (.serverError .unicodeDecodeError, [])
    | some body =>
      if verify (utf8Encode (ts ++ body)) sig then
        processPayload st payload
      else
        (.returnedException 401 "invalid request signature", [])
  | _, _ => (.raised 401 "missing request signature", [])

/-- C7: a verified request with payload type 1 (ping) is answered with the
literal ping acknowledgement, for every registration state and every data
field, with an empty effect trace: no registry is consulted and no
lifecycle handler fires (gateway.py lines 254-257). -/
theorem C7_ping_short_circuit :
    ∀ (st : ClientState) (d : Option PayloadData),
      processPayload st ⟨1, d⟩ = (.pingAck, []) := by
  intro st d
  rfl

/-- C3: lifecycle registration is not list-valued accumulation: registering
a second handler for the same event stores the None that list.append
returns (gateway.py line 199), so the registry maps the event to None
rather than to the two handlers in insertion order, and a subsequent
dispatch loop over that event fires no handler at all. -/
theorem C3_second_registration_stores_none :
    onRegister (onRegister [] "interaction_receive" 1) "interaction_receive" 2
        = [("interaction_receive", EventsVal.pynone)]
      ∧ fireHandlers ⟨[], [], [], onRegister (onRegister [] "interaction_receive" 1)
          "interaction_receive" 2⟩ "interaction_receive" = []
      ∧ onRegister (onRegister [] "interaction_receive" 1) "interaction_receive" 2
          ≠ [("interaction_receive", EventsVal.pylist [1, 2])] := by
  refine ⟨rfl, rfl, ?_⟩
  decide

/-- C4: a registered command whose data.options is [value a, value b] does
not invoke the handler with (interaction, a, b): the extraction loop of
gateway.py lines 271-273 concatenates the tuple with a bare string, and
tuple.__add__ with a str operand raises TypeError on the very first
option; the request ends in a server error after the lifecycle loops ran,
and the handler is never invoked. -/
theorem C4_option_extraction_crashes :
    processPayload ⟨[("greet", 7)], [], [], []⟩
        ⟨2, some ⟨some "greet", none, none, some [⟨"a"⟩, ⟨"b"⟩], none⟩⟩
      = (.serverError (.typeError "can only concatenate tuple (not str) to tuple"), []) := by
  rfl

/-- C2: a verified payload whose type 100 lies outside every recognized
range is answered with the HTTP 200 default unsupported message, not the
HTTP 400 error the claim states: the guard of gateway.py line 330 is the
disjunction of type at least 4 and type below 12, which every integer
satisfies, so the 400 branch of line 340 can never run, on any payload and
any registration state. -/
theorem C2_unrecognized_type_gets_200_default :
    (∀ (st : ClientState) (d : Option PayloadData),
        processPayload st ⟨100, d⟩ = (.defaultMessage unsupportedMsg, [])
          ∧ httpStatusOf (processPayload st ⟨100, d⟩).1 = 200)
      ∧ ∀ (st : ClientState) (p : Payload),
          (processPayload st p).1 ≠ .raised 400 unrecognisedMsg := by
  constructor
  · intro st d
    exact ⟨rfl, rfl⟩
  · intro st p
    rcases p with ⟨t, d⟩
    -- the final guard of line 330 holds of every integer, so the 400
    -- branch can be rewritten away before looking at any other branch
    have hguard : t ≥ 4 ∨ t < 12 := by omega
    simp only [processPayload, menuBranch, if_pos hguard]
    repeat' split
    all_goals simp

/-- C1: on a request with both signature headers present whose signature
the Ed25519 primitive rejects (verify constantly false), the endpoint
returns the HTTPException as an ordinary value instead of raising it
(gateway.py line 246), so FastAPI serializes the exception object and the
HTTP status of the response is 200, not the 401 the claim states; no
further processing happens: the result is independent of the registries
and of the payload, and the effect trace is empty. -/
theorem C1_invalid_signature_returned_not_raised :
    ∀ (st : ClientState) (payload : Payload),
      interactionEndpoint (fun _ _ => false) st ⟨some [97], some [98], [123, 125]⟩ payload
          = (.returnedException 401 "invalid request signature", [])
        ∧ httpStatusOf (interactionEndpoint (fun _ _ => false) st
            ⟨some [97], some [98], [123, 125]⟩ payload).1 = 200 := by
  intro st payload
  exact ⟨rfl, rfl⟩

/-- C5 counterexample: a verified select-menu interaction (type 3,
component_type 3) whose data has no values key and whose custom id is a
registered menu is not processed with an absent value: the subscription
of gateway.py line 291 raises KeyError before the menu lookup, so
dispatch aborts with a server error and an empty effect trace. -/
theorem C5_missing_values_key_aborts :
    processPayload ⟨[], [], [("menu1", 5)], []⟩
        ⟨3, some ⟨none, some "menu1", some 3, none, none⟩⟩
      = (.serverError (.keyError "values"), []) := by
  rfl

/-- C5 amended: for a verified select-menu interaction, when the values
key is present the value computed for multi-select option extraction is
values at index 0 for a nonempty list and none for an empty one (the
head? of the list), and dispatch proceeds to the menu continuation; when
the values key is absent, dispatch aborts with a KeyError server error
before any lookup or lifecycle event. -/
theorem C5_select_menu_value_amended :
    ∀ (st : ClientState) (d : PayloadData) (ct : Int),
      d.component_type = some ct → ct ∈ menuComponentTypes →
      ((∀ vs, d.values = some vs →
          processPayload st ⟨3, some d⟩ = menuBranch st d vs
            ∧ selectMenuValue vs = vs.head?)
        ∧ (d.values = none →
            processPayload st ⟨3, some d⟩ = (.serverError (.keyError "values"), []))) := by
  intro st d ct hct hmem
  constructor
  · intro vs hvs
    constructor
    · simp [processPayload, hct, hmem, hvs]
    · cases vs <;> simp [selectMenuValue]
  · intro hvs
    simp [processPayload, hct, hmem, hvs]

/-- C5 witness: the amended statement evaluated on a registered menu with
a one-element values list. -/
theorem C5_select_menu_value_amended_witness :
    processPayload ⟨[], [], [("menu1", 5)], []⟩
          ⟨3, some ⟨none, some "menu1", some 3, none, some ["x"]⟩⟩
        = menuBranch ⟨[], [], [("menu1", 5)], []⟩
            ⟨none, some "menu1", some 3, none, some ["x"]⟩ ["x"]
      ∧ selectMenuValue ["x"] = (["x"] : List String).head? :=
  (C5_select_menu_value_amended ⟨[], [], [("menu1", 5)], []⟩
    ⟨none, some "menu1", some 3, none, some ["x"]⟩ 3 rfl (by decide)).1 ["x"] rfl

/-- C6: a request missing the X-Signature-Ed25519 header or the
X-Signature-Timestamp header is answered by a raised HTTPException with
status 401 and detail missing request signature (gateway.py lines
235-239), for every verification outcome, every registration state, every
payload and every raw body (valid UTF-8 or not): the check precedes body
decoding, signature verification and JSON processing, and the effect
trace is empty. -/
theorem C6_missing_signature_headers_rejected :
    ∀ (verify : List Nat → List Nat → Bool) (st : ClientState) (payload : Payload)
      (ts sig : Option (List Nat)) (raw : List Nat),
      interactionEndpoint verify st ⟨none, ts, raw⟩ payload
          = (.raised 401 "missing request signature", [])
        ∧ interactionEndpoint verify st ⟨sig, none, raw⟩ payload
          = (.raised 401 "missing request signature", []) := by
  intro verify st payload ts sig raw
  refine ⟨rfl, ?_⟩
  cases sig <;> rfl

/-- C8: for a verified command request whose data carries a name, if the
name is not registered the endpoint answers the default not-registered
message and fires no lifecycle handler (empty trace); if it is
registered, the effect trace starts with every interaction_receive
handler in registration order, then every command_receive handler, and
whatever follows is only the invocation of the routed command handler
(gateway.py lines 259-286). -/
theorem C8_command_routing :
    ∀ (st : ClientState) (d : PayloadData) (nm : String),
      d.name = some nm →
      ((st.commands.lookup nm = none →
          processPayload st ⟨2, some d⟩ = (.defaultMessage commandNotRegisteredMsg, []))
        ∧ ∀ h, st.commands.lookup nm = some h →
            ∃ tail, (processPayload st ⟨2, some d⟩).2
                = fireTrace st "interaction_receive" ++ fireTrace st "command_receive" ++ tail
              ∧ ∀ e ∈ tail, ∃ args, e = TraceEv.invoke h args) := by
  intro st d nm hnm
  constructor
  · intro hlook
    simp [processPayload, hnm, hlook]
  · intro h hlook
    rcases hopt : d.options with _ | ⟨_ | ⟨o, os⟩⟩
    · refine ⟨[TraceEv.invoke h []], ?_, ?_⟩
      · simp [processPayload, hnm, hlook, hopt]
      · intro e he
        simp only [List.mem_singleton] at he
        exact ⟨[], by simp [he]⟩
    · refine ⟨[TraceEv.invoke h []], ?_, ?_⟩
      · simp [processPayload, hnm, hlook, hopt]
      · intro e he
        simp only [List.mem_singleton] at he
        exact ⟨[], by simp [he]⟩
    · cases os with
      | nil =>
        refine ⟨[], ?_, by simp⟩
        simp [processPayload, hnm, hlook, hopt, extractOptions, tupleAddValue]
      | cons o2 os2 =>
        refine ⟨[], ?_, by simp⟩
        simp [processPayload, hnm, hlook, hopt, extractOptions, tupleAddValue]

/-- C8 witness: the routing statement evaluated on a registry holding one
command, once for an unregistered name and once for the registered one. -/
theorem C8_command_routing_witness :
    processPayload ⟨[("greet", 7)], [], [], []⟩ ⟨2, some ⟨some "hi", none, none, none, none⟩⟩
        = (.defaultMessage commandNotRegisteredMsg, [])
      ∧ ∃ tail, (processPayload ⟨[("greet", 7)], [], [], []⟩
            ⟨2, some ⟨some "greet", none, none, none, none⟩⟩).2
          = fireTrace ⟨[("greet", 7)], [], [], []⟩ "interaction_receive"
              ++ fireTrace ⟨[("greet", 7)], [], [], []⟩ "command_receive" ++ tail
          ∧ ∀ e ∈ tail, ∃ args, e = TraceEv.invoke 7 args :=
  ⟨(C8_command_routing ⟨[("greet", 7)], [], [], []⟩
      ⟨some "hi", none, none, none, none⟩ "hi" rfl).1 rfl,
   (C8_command_routing ⟨[("greet", 7)], [], [], []⟩
      ⟨some "greet", none, none, none, none⟩ "greet" rfl).2 7 rfl⟩

/-- C9: a verified component interaction whose component type denotes a
select menu and whose custom id is a registered menu invokes the menu
handler with the full values sequence as one extra list argument, after
the interaction_receive and menu_select lifecycle handlers; one whose
component type is not a select-menu code and whose custom id is a
registered button invokes the button handler with no extra positional
argument, after interaction_receive and button_click (gateway.py lines
288-320). -/
theorem C9_component_handler_args :
    ∀ (st : ClientState) (nm : Option String) (cid : String) (ct : Int)
      (opts : Option (List OptionEntry)) (vs : List String) (h : Nat),
      ((ct ∈ menuComponentTypes → st.menus.lookup cid = some h →
          processPayload st ⟨3, some ⟨nm, some cid, some ct, opts, some vs⟩⟩
            = (.handlerResult h [Arg.strList vs],
                fireTrace st "interaction_receive" ++ fireTrace st "menu_select"
                  ++ [TraceEv.invoke h [Arg.strList vs]]))
        ∧ (ct ∉ menuComponentTypes → st.buttons.lookup cid = some h →
            ∀ (vso : Option (List String)),
              processPayload st ⟨3, some ⟨nm, some cid, some ct, opts, vso⟩⟩
                = (.handlerResult h [],
                    fireTrace st "interaction_receive" ++ fireTrace st "button_click"
                      ++ [TraceEv.invoke h []]))) := by
  intro st nm cid ct opts vs h
  constructor
  · intro hmem hlook
    simp [processPayload, menuBranch, hmem, hlook]
  · intro hmem hlook vso
    simp [processPayload, hmem, hlook]

/-- C9 witness: the component routing statement evaluated on a registry
with one button and one menu, for a menu selection with two values and a
button click. -/
theorem C9_component_handler_args_witness :
    processPayload ⟨[], [("b1", 9)], [("m1", 8)], []⟩
          ⟨3, some ⟨none, some "m1", some 3, none, some ["x", "y"]⟩⟩
        = (.handlerResult 8 [Arg.strList ["x", "y"]],
            fireTrace ⟨[], [("b1", 9)], [("m1", 8)], []⟩ "interaction_receive"
              ++ fireTrace ⟨[], [("b1", 9)], [("m1", 8)], []⟩ "menu_select"
              ++ [TraceEv.invoke 8 [Arg.strList ["x", "y"]]])
      ∧ processPayload ⟨[], [("b1", 9)], [("m1", 8)], []⟩
            ⟨3, some ⟨none, some "b1", some 2, none, none⟩⟩
          = (.handlerResult 9 [],
              fireTrace ⟨[], [("b1", 9)], [("m1", 8)], []⟩ "interaction_receive"
                ++ fireTrace ⟨[], [("b1", 9)], [("m1", 8)], []⟩ "button_click"
                ++ [TraceEv.invoke 9 []]) :=
  ⟨(C9_component_handler_args ⟨[], [("b1", 9)], [("m1", 8)], []⟩ none "m1" 3 none
      ["x", "y"] 8).1 (by decide) rfl,
   (C9_component_handler_args ⟨[], [("b1", 9)], [("m1", 8)], []⟩ none "b1" 2 none
      ["x", "y"] 9).2 (by decide) rfl none⟩

/-- C10: with both signature headers present, the endpoint first decodes
the raw body as UTF-8, so a body that is not valid UTF-8 ends the request
with a UnicodeDecodeError server error no matter what the verifier would
say; for a valid UTF-8 body, the message handed to the Ed25519 verifier
is exactly the encoded timestamp followed by the original raw body bytes
(gateway.py lines 241-244). -/
theorem C10_verified_message :
    ∀ (ts raw : List Nat),
      ((utf8Decode raw = none →
          ∀ (verify : List Nat → List Nat → Bool) (st : ClientState) (payload : Payload)
            (sig : List Nat),
            interactionEndpoint verify st ⟨some sig, some ts, raw⟩ payload
              = (.serverError .unicodeDecodeError, []))
        ∧ ∀ body, utf8Decode raw = some body →
            utf8Encode (ts ++ body) = utf8Encode ts ++ raw
              ∧ ∀ (verify : List Nat → List Nat → Bool) (st : ClientState) (payload : Payload)
                  (sig : List Nat),
                  interactionEndpoint verify st ⟨some sig, some ts, raw⟩ payload
                    = if verify (utf8Encode ts ++ raw) sig then processPayload st payload
                      else (.returnedException 401 "invalid request signature", [])) := by
  intro ts raw
  constructor
  · intro hdec verify st payload sig
    simp [interactionEndpoint, hdec]
  · intro body hdec
    have hb : utf8Encode body = raw := utf8Encode_utf8Decode raw body hdec
    have hmsg : utf8Encode (ts ++ body) = utf8Encode ts ++ raw := by
      rw [utf8Encode_append, hb]
    refine ⟨hmsg, ?_⟩
    intro verify st payload sig
    simp [interactionEndpoint, hdec, hmsg]

/-- C10 witness: the message statement evaluated on an invalid body (a
lone 0xFF byte) and on a valid two-byte UTF-8 body. -/
theorem C10_verified_message_witness :
    interactionEndpoint (fun _ _ => true) ⟨[], [], [], []⟩
          ⟨some [1], some [116], [255]⟩ ⟨1, none⟩
        = (.serverError .unicodeDecodeError, [])
      ∧ utf8Encode ([116] ++ [233]) = utf8Encode [116] ++ [195, 169] :=
  ⟨(C10_verified_message [116] [255]).1 rfl (fun _ _ => true) ⟨[], [], [], []⟩ ⟨1, none⟩ [1],
   ((C10_verified_message [116] [195, 169]).2 [233] rfl).1⟩

end Gatepoint
